import Mathlib

/-!
Renderer.h — shallow embedding and verification.

Embedding of `src/src/Renderer.h`:

* `readFile` (lines 22–47): the path construction through the 1024-byte
  `getcwd` buffer, the `std::ifstream` open/tell/seek/read sequence;
* `clamp` (lines 49–53);
* the member initialisers of `Renderer` (lines 107–130).

Conventions. A `std::string` is a `List Char`, a character occupying as many
bytes as its UTF-8 encoding; a `char` read from a file is a `Byte`; an
exception is represented by its `what()` string; `size_t`/`streampos` values
are `Nat` (stream positions are `off_t` values, below `2^63`, so the cast on
line 38 is the identity on every value it meets).
-/

namespace MetalSeed

/-! ## Common utilities: `readFile` -/

/-- One `char` of a binary file. -/
abbrev Byte := Fin 256

/-- The terminating character of a C string. -/
def NUL : Char := Char.ofNat 0

/-- The path separator appended on line 28. -/
def SLASH : Char := Char.ofNat 47

/-- Size of the stack buffer `char pBuf[1024]` (line 24). -/
def PBUF_SIZE : Nat := 1024

/-- The message of the `std::runtime_error` thrown on line 35. -/
def OPEN_ERROR : String := "failed to open file!"

/-- The `std::bad_alloc` thrown by the allocation of the `std::vector` on
line 39 when the requested size cannot be allocated. -/
def BAD_ALLOC : String := "std::bad_alloc"

/-- The part of the process environment `readFile` depends on.

* `cwd`: the current working directory; `cwdOk`: whether the system can report
  it (it cannot once the directory is unlinked or unreadable).
* `files`: for each path, the bytes of the regular file that can be opened for
  reading there and held in memory.
* `special`: for a path with no such file, the position the stream reports
  after the seek to the end when the path can be opened all the same: a
  directory, which opens and from which no byte can be read (or a regular file
  larger than `heap`, for which the allocation fails before any byte is read);
  `none` when opening fails.
* `heap`: the largest number of bytes one allocation can obtain.
* `files_fit`: the files listed in `files` fit in memory. -/
structure Env where
  cwd : List Char
  cwdOk : Bool
  files : List Char → Option (List Byte)
  special : List Char → Option Nat
  heap : Nat
  files_fit : ∀ path content, files path = some content → content.length ≤ heap

/-- Number of bytes of a string. -/
def byteLength (s : List Char) : Nat :=
  (s.map Char.utf8Size).sum

/-- POSIX `getcwd(buf, size)`: when the working directory can be reported and
its bytes with the terminating NUL fit in `size` bytes, they are written at the
start of `buf` and the call succeeds; otherwise the call fails (returns NULL)
and the buffer keeps whatever it held. The second component is whether the
call succeeded. -/
def getcwd (env : Env) (buf : List Char) (size : Nat) : List Char × Bool :=
  if env.cwdOk && decide (byteLength env.cwd + 1 ≤ size) then
    (env.cwd ++ NUL :: buf.drop (byteLength env.cwd + 1), true)
  else
    (buf, false)

/-- Conversion of a `char` buffer to `std::string` (`path = pBuf`, line 27):
the characters before the first NUL. -/
def cstr (buf : List Char) : List Char :=
  buf.takeWhile (fun c => c != NUL)

/-- Lines 23–30 of `readFile`: the value of `path` handed to the
`std::ifstream` constructor. `pBuf` is the content the uninitialised stack
array happens to hold on entry. The return value of `getcwd` is discarded, as
in the source. -/
def readFilePath (env : Env) (pBuf : List Char) (filename : List Char) : List Char :=
  let path := filename                             -- line 23
  let pBuf := (getcwd env pBuf PBUF_SIZE).1        -- line 26
  let path := (path, cstr pBuf).2                  -- line 27: replaces the old value
  let path := path ++ [SLASH]                      -- line 28
  path ++ filename                                 -- line 30

/-- State of a `std::ifstream`: the bytes that can be read from the associated
file when one is open, the get position, and whether `failbit` is set. -/
structure IfStream where
  file : Option (List Byte)
  pos : Nat
  failbit : Bool

/-- `std::ifstream file(path, std::ios::ate | std::ios::binary)`: on success
the stream is open and positioned at the end of the file (for a directory, at
the position the system reports for its end); on failure it is not open and
`failbit` is set. -/
def IfStream.openAte (env : Env) (path : List Char) : IfStream :=
  match env.files path with
  | some content => { file := some content, pos := content.length, failbit := false }
  | none =>
    match env.special path with
    | some endPos => { file := some [], pos := endPos, failbit := false }
    | none => { file := none, pos := 0, failbit := true }

/-- `(bool)file`: true when no failure bit is set. -/
def IfStream.toBool (s : IfStream) : Bool := !s.failbit

/-- `file.is_open()`. -/
def IfStream.is_open (s : IfStream) : Bool := s.file.isSome

/-- `file.tellg()` on a stream that has not failed. -/
def IfStream.tellg (s : IfStream) : Nat := s.pos

/-- `file.seekg(p)`. -/
def IfStream.seekg (s : IfStream) (p : Nat) : IfStream :=
  match s.file with
  | some content => if p ≤ content.length then { s with pos := p } else { s with failbit := true }
  | none => { s with failbit := true }

/-- `file.read(buffer.data(), n)`: copies up to `n` bytes from the get position
over the start of `buffer`; sets `failbit` when fewer than `n` are available. -/
def IfStream.read (s : IfStream) (buffer : List Byte) (n : Nat) : IfStream × List Byte :=
  match s.file with
  | some content =>
    let got := (content.drop s.pos).take n
    ({ s with pos := s.pos + got.length, failbit := s.failbit || decide (got.length < n) },
      got ++ buffer.drop got.length)
  | none => ({ s with failbit := true }, buffer)

/-- `file.close()`. -/
def IfStream.close (s : IfStream) : IfStream :=
  { s with file := none }

/-- `std::vector<char> buffer(n)` (line 39): `n` zero bytes, or the
`std::bad_alloc` of an allocation that cannot be satisfied. -/
def vectorOfSize (env : Env) (n : Nat) : Except String (List Byte) :=
  if n > env.heap then .error BAD_ALLOC else .ok (List.replicate n 0)

/-- The function `readFile` of Renderer.h, lines 22–47. The result is the
returned buffer or the exception thrown (the `std::runtime_error` of line 35,
or the `std::bad_alloc` of the allocation on line 39, which nothing in the
function catches), paired with the environment after the call (the stream is
an input stream: nothing is written back). -/
def readFile (env : Env) (pBuf : List Char) (filename : List Char) :
    Except String (List Byte) × Env :=
  let path := readFilePath env pBuf filename
  let file := IfStream.openAte env path
  let exists_ := file.toBool
  if !exists_ || !file.is_open then
    (.error OPEN_ERROR, env)
  else
    let fileSize := file.tellg
    match vectorOfSize env fileSize with
    | .error e => (.error e, env)
    | .ok buffer =>
      let file := file.seekg 0
      let (file, buffer) := file.read buffer fileSize
      let _file := file.close
      (.ok buffer, env)

/-- The function template `clamp` of Renderer.h, lines 49–53. -/
def clamp {T : Type} [LinearOrder T] (value low high : T) : T :=
  if value < low then low else (if value > high then high else value)


/-! ## `Renderer`: data members (Renderer.h lines 107–151)

A `float` literal is represented by its exact rational value (every literal of
the header is exactly representable in binary32). Values the renderer computes
in floating point at run time are kept in an abstract scalar type `F`, and
`glm::mat4` values in an abstract type `M`. -/

/-- The type `struct Vertex` (lines 107–111): `float position[3]` followed by
`float color[3]`. -/
structure Vertex where
  position : List ℚ
  color : List ℚ
  deriving DecidableEq

/-- Initialiser of `Renderer::mVertexBufferData` (lines 113–118). -/
def mVertexBufferData : List Vertex :=
  [ { position := [1, -1, 0], color := [1, 0, 0] },
    { position := [-1, -1, 0], color := [0, 1, 0] },
    { position := [0, 1, 0], color := [0, 0, 1] } ]

/-- Initialiser of `Renderer::mIndexBufferData` (line 120), `uint32_t[3]`. -/
def mIndexBufferData : List Nat := [0, 1, 2]

/-- The anonymous uniform struct `uboVS` (lines 126–130). -/
structure UboVS (M : Type) where
  projectionMatrix : M
  modelMatrix : M
  viewMatrix : M

/-- The data members of `class Renderer` that hold values: the mesh arrays,
the clock members, the uniform data, the viewport size, and the contents of
the three `MTLBuffer`s (`none` while the buffer has not been created). The
remaining members are handles to GPU objects; their creation is recorded in
the list of `GpuObject`s kept beside the renderer. -/
structure Renderer (F M : Type) where
  mVertexBufferData : List Vertex
  mIndexBufferData : List Nat
  tStart : Nat
  tEnd : Nat
  mElapsedTime : F
  uboVS : UboVS M
  mViewportSize : Nat × Nat
  mVertexBuffer : Option (List Vertex)
  mIndexBuffer : Option (List Nat)
  mUniformBuffer : Option (UboVS M)

/-- Modelled from the spec: the external collaborators of the renderer that
are not in `Renderer.h` — the conversion of a clock duration to a `float`
(`elapsed`), the math library building the rotation about the fixed axis by
the angle proportional to an elapsed time (`rotation`), the aspect ratio of a
viewport (`aspect`) and the projection matrix for an aspect ratio
(`perspective`), the fixed view matrix (`view`), and the values `0.0f`
(`zero`) and the default `glm::mat4` (`mat4`). -/
structure Glm (F M : Type) where
  zero : F
  mat4 : M
  elapsed : Nat → F
  rotation : F → M
  aspect : Nat → Nat → F
  perspective : F → M
  view : M

/-- Modelled from the spec: the command buffer one `render()` call submits
(section 4.1, Render (e)–(f)): the buffers bound and the number of indices of
the single indexed triangle-list draw. -/
structure Frame (M : Type) where
  vertices : Option (List Vertex)
  indices : Option (List Nat)
  uniforms : Option (UboVS M)
  indexCount : Nat

/-- Modelled from the spec: `Renderer::resize(width, height)`, whose body is
not in `Renderer.h`. Section 4.1, Resize: update the viewport dimensions and
recompute the projection matrix for the new aspect ratio. -/
def Renderer.resize {F M : Type} (g : Glm F M) (r : Renderer F M) (width height : Nat) :
    Renderer F M :=
  { r with
    mViewportSize := (width, height),
    uboVS := { r.uboVS with projectionMatrix := g.perspective (g.aspect width height) } }

/-- Modelled from the spec: `Renderer::render()`, whose body is not in
`Renderer.h`. Section 4.1, Render (a)–(f): compute the elapsed time since the
start, derive the model matrix from it, copy the three matrices into the
uniform buffer, and, when a drawable is available, submit one command buffer
drawing the three indices; with no drawable the frame is skipped. `now` is the
reading of the clock and `drawable` whether a surface texture is available. -/
def Renderer.render {F M : Type} (g : Glm F M) (r : Renderer F M) (now : Nat)
    (drawable : Bool) : Renderer F M × Option (Frame M) :=
  let tEnd := now
  let mElapsedTime := g.elapsed (tEnd - r.tStart)
  let uboVS := { r.uboVS with modelMatrix := g.rotation mElapsedTime }
  let r : Renderer F M :=
    { r with tEnd := tEnd, mElapsedTime := mElapsedTime, uboVS := uboVS,
             mUniformBuffer := r.mUniformBuffer.map (fun _ => uboVS) }
  if drawable then
    (r, some { vertices := r.mVertexBuffer, indices := r.mIndexBuffer,
               uniforms := r.mUniformBuffer, indexCount := 3 })
  else
    (r, none)

/-- Modelled from the spec: consecutive `render()` calls, one per element of
`frames` (the clock reading and the drawable availability of each call). -/
def Renderer.renderAll {F M : Type} (g : Glm F M) (r : Renderer F M) :
    List (Nat × Bool) → Renderer F M
  | [] => r
  | (now, drawable) :: frames => Renderer.renderAll g (r.render g now drawable).1 frames

/-! ## Lemmas on the path construction -/

theorem cstr_append_NUL (s rest : List Char) (h : NUL ∉ s) :
    cstr (s ++ NUL :: rest) = s := by
  induction s with
  | nil => simp [cstr, List.takeWhile]
  | cons c s ih =>
    have hc : c ≠ NUL := fun e => h (by simp [e])
    have hs : NUL ∉ s := fun e => h (by simp [e])
    have hb : (c != NUL) = true := by simpa using hc
    have ih2 := ih hs
    simp only [cstr] at ih2 ⊢
    rw [List.cons_append, List.takeWhile_cons, hb]
    simp [ih2]

theorem cstr_replicate_NUL (n : Nat) : cstr (List.replicate n NUL) = [] := by
  cases n with
  | zero => simp [cstr]
  | succ n => simp [cstr, List.replicate, List.takeWhile]

theorem byteLength_cons (c : Char) (s : List Char) :
    byteLength (c :: s) = c.utf8Size + byteLength s := by
  simp [byteLength]

theorem byteLength_append (s t : List Char) :
    byteLength (s ++ t) = byteLength s + byteLength t := by
  simp [byteLength]

theorem byteLength_replicate (n : Nat) (c : Char) :
    byteLength (List.replicate n c) = n * c.utf8Size := by
  simp [byteLength]

/-- When the working directory can be reported and fits the buffer, the opened
path is the working directory, a slash and the file name. -/
theorem readFilePath_of_fits (env : Env) (pBuf filename : List Char)
    (hok : env.cwdOk = true) (hfit : byteLength env.cwd + 1 ≤ PBUF_SIZE)
    (hnul : NUL ∉ env.cwd) :
    readFilePath env pBuf filename = env.cwd ++ SLASH :: filename := by
  simp [readFilePath, getcwd, hok, hfit, cstr_append_NUL _ _ hnul]

/-- When the working directory does not fit the buffer, `getcwd` fails and the
opened path starts with whatever string the buffer held before. -/
theorem readFilePath_of_overflow (env : Env) (pBuf filename : List Char)
    (hlong : PBUF_SIZE < byteLength env.cwd + 1) :
    readFilePath env pBuf filename = cstr pBuf ++ SLASH :: filename := by
  have h : ¬ byteLength env.cwd + 1 ≤ PBUF_SIZE := by omega
  simp [readFilePath, getcwd, h]

/-- The outcome of `readFile` in terms of what is found at the opened path. -/
theorem readFile_eq (env : Env) (pBuf filename : List Char) :
    readFile env pBuf filename =
      match env.files (readFilePath env pBuf filename) with
      | some content => (.ok content, env)
      | none =>
        match env.special (readFilePath env pBuf filename) with
        | some endPos =>
          if endPos > env.heap then (.error BAD_ALLOC, env)
          else (.ok (List.replicate endPos 0), env)
        | none => (.error OPEN_ERROR, env) := by
  unfold readFile
  cases h : env.files (readFilePath env pBuf filename) with
  | none =>
    cases hd : env.special (readFilePath env pBuf filename) with
    | none => simp [IfStream.openAte, h, hd, IfStream.toBool, IfStream.is_open]
    | some endPos =>
      by_cases hn : endPos > env.heap
      · simp [IfStream.openAte, h, hd, IfStream.toBool, IfStream.is_open, IfStream.tellg,
          vectorOfSize, hn]
      · simp [IfStream.openAte, h, hd, IfStream.toBool, IfStream.is_open, IfStream.tellg,
          vectorOfSize, hn, IfStream.seekg, IfStream.read]
  | some content =>
    have hfit : ¬ content.length > env.heap := not_lt.mpr (env.files_fit _ _ h)
    simp [IfStream.openAte, h, IfStream.toBool, IfStream.is_open, IfStream.tellg,
      vectorOfSize, hfit, IfStream.seekg, IfStream.read]

theorem BAD_ALLOC_ne_OPEN_ERROR : BAD_ALLOC ≠ OPEN_ERROR := by
  decide

/-! ## Concrete inputs used by the closed statements below -/

/-- A buffer of `PBUF_SIZE` NUL characters. -/
def zeroBuf : List Char := List.replicate 1024 NUL

/-- A directory name of 255 letters, preceded by the separator. -/
def longDir : List Char := SLASH :: List.replicate 255 'a'

/-- A working directory of 1024 characters: four nested directories whose
names are 255 letters long. -/
def longCwd : List Char := longDir ++ longDir ++ longDir ++ longDir

/-- An environment whose working directory is `/w` and holds the three-byte
file `/w/a`. -/
def smallEnv : Env :=
  { cwd := [SLASH, 'w'],
    cwdOk := true,
    files := fun p => if p = [SLASH, 'w', SLASH, 'a'] then some [1, 2, 3] else none,
    special := fun _ => none,
    heap := 2 ^ 34,
    files_fit := by
      intro path content h
      simp only at h
      split at h
      · cases h; decide
      · cases h }

/-- An environment whose working directory is `longCwd` and holds the
three-byte file `x` in it. -/
def longEnv : Env :=
  { cwd := longCwd,
    cwdOk := true,
    files := fun p => if p = longCwd ++ [SLASH, 'x'] then some [1, 2, 3] else none,
    special := fun _ => none,
    heap := 2 ^ 34,
    files_fit := by
      intro path content h
      simp only at h
      split at h
      · cases h; decide
      · cases h }

/-- An environment whose working directory `/w` holds no file; the directory
itself opens, the stream reporting the position `2^63 - 1` for its end, and 16
GiB can be allocated. -/
def dirEnv : Env :=
  { cwd := [SLASH, 'w'],
    cwdOk := true,
    files := fun _ => none,
    special := fun p => if p = [SLASH, 'w', SLASH] then some (2 ^ 63 - 1) else none,
    heap := 2 ^ 34,
    files_fit := by
      intro path content h
      cases h }

theorem longCwd_length : longCwd.length = 1024 := by
  simp only [longCwd, longDir, List.length_append, List.length_cons, List.length_replicate]

theorem longCwd_byteLength : byteLength longCwd = 1024 := by
  have ha : Char.utf8Size 'a' = 1 := by decide
  have hs : Char.utf8Size SLASH = 1 := by decide
  simp only [longCwd, longDir, byteLength_append, byteLength_cons, byteLength_replicate, ha, hs]

theorem NUL_not_mem_smallEnv_cwd : NUL ∉ smallEnv.cwd := by
  decide

theorem smallEnv_path : readFilePath smallEnv zeroBuf ['a'] = [SLASH, 'w', SLASH, 'a'] := by
  rw [readFilePath_of_fits smallEnv zeroBuf ['a'] rfl (by decide) NUL_not_mem_smallEnv_cwd]
  rfl

theorem dirEnv_path : readFilePath dirEnv zeroBuf [] = [SLASH, 'w', SLASH] := by
  rw [readFilePath_of_fits dirEnv zeroBuf [] rfl (by decide) (by decide)]
  rfl

/-! ## The claims -/

/-- C1 as stated fails: the empty file name resolves to the working directory
itself, which opens (the stream is good and open); the stream reports
`2^63 - 1` as its size and the allocation on line 39 throws `std::bad_alloc`:
the open succeeded, yet no buffer is returned and an exception is raised. -/
theorem readFile_directory_throws_bad_alloc :
    readFilePath dirEnv zeroBuf [] = [SLASH, 'w', SLASH] ∧
    (IfStream.openAte dirEnv (readFilePath dirEnv zeroBuf [])).toBool = true ∧
    (IfStream.openAte dirEnv (readFilePath dirEnv zeroBuf [])).is_open = true ∧
    (readFile dirEnv zeroBuf []).1 = .error BAD_ALLOC ∧
    (readFile dirEnv zeroBuf []).1 ≠ .error OPEN_ERROR ∧
    ¬ ∃ buffer, (readFile dirEnv zeroBuf []).1 = .ok buffer := by
  have hf : dirEnv.files [SLASH, 'w', SLASH] = none := rfl
  have hd : dirEnv.special [SLASH, 'w', SLASH] = some (2 ^ 63 - 1) := by
    simp [dirEnv]
  have hh : 2 ^ 63 - 1 > dirEnv.heap := by
    simp [dirEnv]
  have hr : (readFile dirEnv zeroBuf []).1 = .error BAD_ALLOC := by
    rw [readFile_eq, dirEnv_path, hf, hd]
    simp only [hh, if_true]
  refine ⟨dirEnv_path, ?_, ?_, hr, ?_, ?_⟩
  · rw [dirEnv_path]; simp [IfStream.openAte, hf, hd, IfStream.toBool]
  · rw [dirEnv_path]; simp [IfStream.openAte, hf, hd, IfStream.is_open]
  · rw [hr]
    intro h
    injection h with h
    exact BAD_ALLOC_ne_OPEN_ERROR h
  · rw [hr]
    rintro ⟨buffer, h⟩
    cases h

/-- C1, amended: for every file name, `readFile` throws the runtime error
"failed to open file!" (and so returns no buffer) exactly when the stream
cannot be opened at the path it built, that is when there is neither a regular
file nor a directory to open there; and when a regular file that fits in
memory opens, `readFile` returns a buffer and throws nothing. -/
theorem readFile_throws_iff_cannot_open (env : Env) (pBuf filename : List Char) :
    ((readFile env pBuf filename).1 = .error OPEN_ERROR ↔
        (IfStream.openAte env (readFilePath env pBuf filename)).is_open = false) ∧
    ((IfStream.openAte env (readFilePath env pBuf filename)).is_open = false ↔
        (env.files (readFilePath env pBuf filename) = none ∧
          env.special (readFilePath env pBuf filename) = none)) ∧
    (∀ content, env.files (readFilePath env pBuf filename) = some content →
        ∃ buffer, (readFile env pBuf filename).1 = .ok buffer) := by
  have hne : ¬ (BAD_ALLOC = OPEN_ERROR) := BAD_ALLOC_ne_OPEN_ERROR
  rw [readFile_eq]
  cases h : env.files (readFilePath env pBuf filename) with
  | some content => simp [IfStream.openAte, h, IfStream.is_open]
  | none =>
    cases hd : env.special (readFilePath env pBuf filename) with
    | none => simp [IfStream.openAte, h, hd, IfStream.is_open]
    | some endPos =>
      by_cases hn : endPos > env.heap
      · simp [IfStream.openAte, h, hd, IfStream.is_open, hn, hne]
      · simp [IfStream.openAte, h, hd, IfStream.is_open, hn]

theorem readFile_throws_iff_cannot_open_witness :
    smallEnv.files (readFilePath smallEnv zeroBuf ['a']) = some [1, 2, 3] ∧
    ∃ buffer, (readFile smallEnv zeroBuf ['a']).1 = .ok buffer :=
  have h : smallEnv.files (readFilePath smallEnv zeroBuf ['a']) = some [1, 2, 3] := by
    rw [smallEnv_path]; rfl
  ⟨h, (readFile_throws_iff_cannot_open smallEnv zeroBuf ['a']).2.2 [1, 2, 3] h⟩

/-- C2, at a working directory of 1024 characters: `getcwd` fails on the
1024-byte buffer, its result is not checked, and the path `readFile` opens is
the string left in the buffer (here empty), a slash and the file name — not
the working directory followed by the file name; the existing file `x` of the
working directory is reported as impossible to open. -/
theorem readFile_path_when_getcwd_fails :
    readFilePath longEnv zeroBuf ['x'] = [SLASH, 'x'] ∧
    readFilePath longEnv zeroBuf ['x'] ≠ longEnv.cwd ++ SLASH :: ['x'] ∧
    longEnv.files (longEnv.cwd ++ SLASH :: ['x']) = some [1, 2, 3] ∧
    (readFile longEnv zeroBuf ['x']).1 = .error OPEN_ERROR := by
  have hlen : byteLength longEnv.cwd = 1024 := longCwd_byteLength
  have hp : readFilePath longEnv zeroBuf ['x'] = [SLASH, 'x'] := by
    rw [readFilePath_of_overflow longEnv zeroBuf ['x'] (by rw [hlen]; decide)]
    rw [zeroBuf, cstr_replicate_NUL]
    rfl
  have hne : [SLASH, 'x'] ≠ longCwd ++ [SLASH, 'x'] := by
    intro h
    have := congrArg List.length h
    simp [longCwd_length] at this
  refine ⟨hp, ?_, ?_, ?_⟩
  · rw [hp]; exact hne
  · simp [longEnv]
  · rw [readFile_eq, hp]
    simp [longEnv, hne]

/-- C3: the index list has exactly three entries, 0, 1, 2 in that order. -/
theorem mIndexBufferData_is_0_1_2 :
    mIndexBufferData.length = 3 ∧ mIndexBufferData = [0, 1, 2] := by
  exact ⟨rfl, rfl⟩

/-- C4: the vertex data is an array of exactly three vertices, each a
3-component position and a 3-component colour: (1,-1,0) red, (-1,-1,0) green
and (0,1,0) blue. -/
theorem mVertexBufferData_is_triangle :
    mVertexBufferData.length = 3 ∧
    (∀ v ∈ mVertexBufferData, v.position.length = 3 ∧ v.color.length = 3) ∧
    mVertexBufferData.map (fun v => v.position) = [[1, -1, 0], [-1, -1, 0], [0, 1, 0]] ∧
    mVertexBufferData.map (fun v => v.color) = [[1, 0, 0], [0, 1, 0], [0, 0, 1]] := by
  refine ⟨rfl, ?_, rfl, rfl⟩
  intro v hv
  simp only [mVertexBufferData, List.mem_cons, List.mem_singleton, List.not_mem_nil,
    or_false] at hv
  rcases hv with h | h | h <;> subst h <;> exact ⟨rfl, rfl⟩

/-- C5: whatever the renderer state and however many consecutive `render()`
calls are made (one per element of `frames`), the vertex array and the index
array afterwards equal those before; so do the contents of the vertex and
index GPU buffers. -/
theorem render_preserves_mesh {F M : Type} (g : Glm F M) (r : Renderer F M)
    (frames : List (Nat × Bool)) :
    (r.renderAll g frames).mVertexBufferData = r.mVertexBufferData ∧
    (r.renderAll g frames).mIndexBufferData = r.mIndexBufferData ∧
    (r.renderAll g frames).mVertexBuffer = r.mVertexBuffer ∧
    (r.renderAll g frames).mIndexBuffer = r.mIndexBuffer := by
  induction frames generalizing r with
  | nil => exact ⟨rfl, rfl, rfl, rfl⟩
  | cons f frames ih =>
    obtain ⟨now, drawable⟩ := f
    have h := ih (r.render g now drawable).1
    cases drawable <;> simpa [Renderer.renderAll, Renderer.render] using h

/-- C6: `resize(w,h)` followed by `resize(w,h)` leaves the same projection
matrix (indeed the same renderer state) as a single `resize(w,h)`. -/
theorem resize_idempotent {F M : Type} (g : Glm F M) (r : Renderer F M) (w h : Nat) :
    ((r.resize g w h).resize g w h).uboVS.projectionMatrix =
        (r.resize g w h).uboVS.projectionMatrix ∧
    (r.resize g w h).resize g w h = r.resize g w h := by
  exact ⟨rfl, rfl⟩

/-- C9: with `low ≤ high`, `clamp value low high` lies in `[low, high]`, equals
`value` exactly when `value` lies in that range, is `low` when `value < low`
and `high` when `value > high`, and clamping twice is clamping once. Without
the precondition, `clamp` still returns `low` whenever `value < low`, so the
result lies above `high` when `high < low`. -/
theorem clamp_spec {T : Type} [LinearOrder T] (value low high : T) :
    (low ≤ high →
      (low ≤ clamp value low high ∧ clamp value low high ≤ high) ∧
      (clamp value low high = value ↔ low ≤ value ∧ value ≤ high) ∧
      (value < low → clamp value low high = low) ∧
      (high < value → clamp value low high = high) ∧
      clamp (clamp value low high) low high = clamp value low high) ∧
    (value < low → clamp value low high = low) ∧
    (high < low → value < low → ¬ clamp value low high ≤ high) := by
  refine ⟨fun hlh => ?_, fun hv => ?_, fun hhl hv => ?_⟩
  · by_cases h1 : value < low
    · have h3 : ¬ low < low := lt_irrefl low
      have h4 : ¬ low > high := not_lt.mpr hlh
      have h5 : ¬ high < value := not_lt.mpr (le_trans (le_of_lt h1) hlh)
      refine ⟨?_, ?_, ?_, ?_, ?_⟩
      · simp [clamp, h1, hlh]
      · simp only [clamp, h1, if_true]
        constructor
        · intro e; exact absurd (e ▸ h1) h3
        · intro hr; exact absurd h1 (not_lt.mpr hr.1)
      · intro _; simp [clamp, h1]
      · intro hh; exact absurd hh h5
      · simp [clamp, h1, h4]
    · by_cases h2 : value > high
      · have h3 : ¬ high < low := not_lt.mpr hlh
        have h4 : ¬ high > high := lt_irrefl high
        refine ⟨?_, ?_, ?_, ?_, ?_⟩
        · simp [clamp, h1, h2, hlh]
        · simp only [clamp, h1, h2, if_true, if_false]
          constructor
          · intro e; exact absurd (e ▸ h2) h4
          · intro hr; exact absurd h2 (not_lt.mpr hr.2)
        · intro hh; exact absurd hh h1
        · intro _; simp [clamp, h1, h2]
        · simp [clamp, h1, h2, h3]
      · refine ⟨?_, ?_, ?_, ?_, ?_⟩
        · simp only [clamp, h1, h2, if_false]
          exact ⟨not_lt.mp h1, not_lt.mp h2⟩
        · simp only [clamp, h1, h2, if_false, true_iff]
          exact ⟨not_lt.mp h1, not_lt.mp h2⟩
        · intro hh; exact absurd hh h1
        · intro hh; exact absurd hh h2
        · simp [clamp, h1, h2]
  · simp [clamp, hv]
  · simp only [clamp, hv, if_true]
    exact not_le.mpr hhl

theorem clamp_spec_witness :
    ((0 : Int) ≤ 5 ∧ clamp (7 : Int) 0 5 = 5 ∧
      clamp (clamp (7 : Int) 0 5) 0 5 = clamp (7 : Int) 0 5) ∧
    ((3 : Int) < 5 ∧ (0 : Int) < 5 ∧ ¬ clamp (0 : Int) 5 3 ≤ 3) :=
  ⟨⟨by decide, ((clamp_spec (7 : Int) 0 5).1 (by decide)).2.2.2.1 (by decide),
      ((clamp_spec (7 : Int) 0 5).1 (by decide)).2.2.2.2⟩,
    by decide, by decide, (clamp_spec (0 : Int) 5 3).2.2 (by decide) (by decide)⟩

end MetalSeed
